import Mathlib

/-!
Shallow embedding of the Berlin-Services MCP server core
(src/berlin_mcp: services/cache.py, services/api_client.py,
services/loop_protector.py, services/form_logic.py, tools.py).

Modelling conventions:
* Wall-clock instants (Python datetime values) are integers counting seconds;
  a difference of datetimes in seconds becomes integer subtraction.
* Python dicts whose iteration order matters are association lists in
  insertion order; dict keys are unique.
* JSON values are the inductive Json below; Python truthiness of a JSON
  value is Json.truthy.
* Fallible I/O (HTTP fetch, file read, JSON parse) is passed in as an
  Option-valued input: none models the exception path that the source
  catches.
-/

/-- JSON values as handled by the Python code (json module). Numbers are
integers here: the only numbers the modelled code stores are timestamps,
which we model in seconds. -/
inductive Json where
  | null : Json
  | bool : Bool → Json
  | num : Int → Json
  | str : String → Json
  | arr : List Json → Json
  | obj : List (String × Json) → Json

/-- Python truthiness of a JSON value: None, False, 0, empty string, empty
list and empty dict are falsy, everything else truthy. -/
def Json.truthy : Json → Bool
  | .null => false
  | .bool b => b
  | .num n => decide (n ≠ 0)
  | .str s => decide (s ≠ "")
  | .arr xs => !xs.isEmpty
  | .obj kvs => !kvs.isEmpty

/-- dict.get(k): lookup in a JSON object; none when the value is not a dict
(the AttributeError path) or the key is missing. -/
def Json.get? : Json → String → Option Json
  | .obj kvs, k => (kvs.find? (fun kv => kv.1 = k)).map (fun kv => kv.2)
  | _, _ => none

/-- isinstance(x, list). -/
def Json.isArr : Json → Bool
  | .arr _ => true
  | _ => false

/-- Path(p).name: the final component of a slash-separated path (the
characters after the last slash). -/
def pathName (p : String) : String :=
  String.mk (p.data.foldl (fun acc c => if c = '/' then [] else acc ++ [c]) [])

/-- Python substring test: needle in hay. -/
def strContains (hay needle : String) : Bool := decide (List.IsInfix needle.data hay.data)

/-- str.lower(), character by character (ASCII case mapping; the German
inputs the matcher handles are already lowercase where it matters). -/
def strLower (s : String) : String := String.mk (s.data.map Char.toLower)

/-- str.endswith(suffix). -/
def strEndsWith (s suff : String) : Bool := decide (List.IsSuffix suff.data s.data)

/-! ## CacheManager (services/cache.py) -/

/-- State of a CacheManager instance plus the on-disk cache file.
disk = none models a missing cache file or one that fails to parse as JSON. -/
structure CacheState where
  memCache : Option Json
  memTs : Option Int
  disk : Option Json

/-- CacheManager.is_valid: a missing timestamp is never valid, otherwise the
age must be strictly below the TTL. (A Python datetime is always truthy, so
the "if not timestamp" guard fires exactly on None.) -/
def CacheManager.is_valid (ttl now : Int) (timestamp : Option Int) : Bool :=
  match timestamp with
  | none => false
  | some t => decide (now - t < ttl)

/-- CacheManager.get_memory. -/
def CacheManager.get_memory (ttl now : Int) (st : CacheState) : Option Json × Bool :=
  if CacheManager.is_valid ttl now st.memTs then (st.memCache, true) else (none, false)

/-- datetime.fromisoformat applied to the stored timestamp value: succeeds
exactly on a stored timestamp number, fails (raising, caught by the except)
on anything else. -/
def parseTimestamp : Json → Option Int
  | .num t => some t
  | _ => none

/-- CacheManager.get_disk: a missing file, unparseable record, missing or
unparseable timestamp, stale timestamp, or missing data key, are all misses
(never an error). -/
def CacheManager.get_disk (ttl now : Int) (disk : Option Json) : Option Json × Bool :=
  match disk with
  | none => (none, false)
  | some cached =>
    match (cached.get? "_timestamp").bind parseTimestamp with
    | none => (none, false)
    | some ts =>
      if CacheManager.is_valid ttl now (some ts) then
        match cached.get? "data" with
        | some d => (some d, true)
        | none => (none, false)
      else (none, false)

/-- CacheManager.set: store into memory and overwrite the disk file with
a record holding the data and the current timestamp. -/
def CacheManager.set (_st : CacheState) (data : Json) (now : Int) : CacheState :=
  { memCache := some data
    memTs := some now
    disk := some (.obj [("data", data), ("_timestamp", .num now)]) }

/-! ## fetch_services_data (services/api_client.py) -/

/-- One entry of the embedded FALLBACK_DATA list. -/
def fallbackEntry (id name desc keywords url fees : String) : Json :=
  .obj [("id", .str id), ("name", .str name), ("description", .str desc),
        ("meta", .obj [("keywords", .str keywords), ("url", .str url)]),
        ("fees", .str fees), ("onlineservices", .arr []), ("locations", .arr []),
        ("requirements", .arr []), ("forms", .arr [])]

/-- FALLBACK_DATA: the embedded static dataset (its created field is a
startup timestamp, modelled as a fixed placeholder string). -/
def fallbackData : Json :=
  .obj [("data", .arr
          [fallbackEntry "120686" "Anmeldung einer Wohnung" "Registration of residence"
             "anmeldung,wohnung" "https://service.berlin.de/dienstleistung/120686/" "EUR 0.00",
           fallbackEntry "121468" "Reisepass (Passport)" "Application for German passport"
             "reisepass,passport" "https://service.berlin.de/dienstleistung/121468/" "EUR 60.00",
           fallbackEntry "120335" "Führerschein" "Driver\x27s license"
             "führerschein,driver" "https://service.berlin.de/dienstleistung/120335/" "EUR 43.00"]),
        ("created", .str "startup"), ("hash", .str "fallback_v1")]

/-- Validation applied to a live API payload: the data key must be truthy
(present and non-empty) and hold a list. -/
def validPayload (d : Json) : Bool :=
  match d.get? "data" with
  | some v => v.truthy && v.isArr
  | none => false

/-- The disk-then-fallback tail of the cascade: if not forcing refresh, a
disk hit is returned tagged disk when its payload is truthy, otherwise the
embedded fallback dataset is returned tagged fallback. -/
def fetchDiskFallback (ttl now : Int) (st : CacheState) (force : Bool) :
    (Json × String) × CacheState :=
  if force then ((fallbackData, "fallback"), st)
  else
    match (CacheManager.get_disk ttl now st.disk).1 with
    | some p => if p.truthy then ((p, "disk"), st) else ((fallbackData, "fallback"), st)
    | none => ((fallbackData, "fallback"), st)

/-- fetch_services_data: memory tier, then live fetch (live = none models a
network/HTTP/JSON failure), then disk tier, then embedded fallback. -/
def fetch_services_data (ttl now : Int) (live : Option Json) (st : CacheState)
    (force : Bool) : (Json × String) × CacheState :=
  if !force && (CacheManager.get_memory ttl now st).2 then
    (((CacheManager.get_memory ttl now st).1.getD .null, "memory"), st)
  else
    match live with
    | some d =>
      if validPayload d then ((d, "live"), CacheManager.set st d now)
      else fetchDiskFallback ttl now st force
    | none => fetchDiskFallback ttl now st force

/-! ## LoopProtector (services/loop_protector.py) -/

/-- In-memory state of the idempotency ledger: an insertion-ordered map
from request fingerprint to (timestamp, artifact path, artifact id).
Timestamps are stored as isoformat strings in the file; we model them
already parsed, as seconds. -/
structure LoopProtector where
  hashes : List (String × Int × String × String)
deriving Repr, DecidableEq

/-- LoopProtector._load: a missing or unparseable ledger file (stored =
none) yields an empty ledger; otherwise every record whose age reaches 24
hours (86400 seconds) is discarded before the index is built. -/
def LoopProtector.load (stored : Option (List (String × Int × String × String)))
    (now : Int) : LoopProtector :=
  match stored with
  | none => ⟨[]⟩
  | some data => ⟨data.filter (fun kv => decide (now - kv.2.1 < 86400))⟩

/-- LoopProtector.save: dict assignment (replace in place when the key is
present, append otherwise), then persist; a persistence failure is
swallowed and does not change the in-memory map. -/
def LoopProtector.save (p : LoopProtector) (now : Int) (key path fileId : String) :
    LoopProtector :=
  if p.hashes.any (fun kv => kv.1 = key) then
    ⟨p.hashes.map (fun kv => if kv.1 = key then (key, now, path, fileId) else kv)⟩
  else
    ⟨p.hashes ++ [(key, now, path, fileId)]⟩

/-- LoopProtector.check: pure lookup returning (path, file id). -/
def LoopProtector.check (p : LoopProtector) (key : String) : Option (String × String) :=
  (p.hashes.find? (fun kv => kv.1 = key)).map (fun kv => (kv.2.2.1, kv.2.2.2))

/-! ## Request fingerprint (form_logic.py lines 94-95) -/

/-- Lowercase hex digit. -/
def hexDigit (n : Nat) : Char := "0123456789abcdef".data.getD n '0'

/-- A \uXXXX escape for a code unit. -/
def uEscape (n : Nat) : String :=
  "\\u" ++ String.mk [hexDigit (n / 4096 % 16), hexDigit (n / 256 % 16),
                      hexDigit (n / 16 % 16), hexDigit (n % 16)]

/-- json.dumps escaping of one character (default ensure_ascii=True):
quote, backslash and control characters are escaped, non-ASCII characters
become \uXXXX escapes (surrogate pairs above the BMP). -/
def jsonEscChar (c : Char) : String :=
  if c = '"' then "\\\""
  else if c = '\\' then "\\\\"
  else if c = '\n' then "\\n"
  else if c = '\r' then "\\r"
  else if c = '\t' then "\\t"
  else if c = '\x08' then "\\b"
  else if c = '\x0c' then "\\f"
  else if c.toNat < 0x20 then uEscape c.toNat
  else if c.toNat < 0x7f then String.mk [c]
  else if c.toNat < 0x10000 then uEscape c.toNat
  else uEscape (0xd800 + (c.toNat - 0x10000) / 1024) ++ uEscape (0xdc00 + (c.toNat - 0x10000) % 1024)

/-- json.dumps of a string. -/
def jsonQuote (s : String) : String :=
  "\"" ++ String.join (s.data.map jsonEscChar) ++ "\""

/-- The items of the field-data dict sorted by key, as json.dumps
(sort_keys=True) enumerates them. -/
def sortByKey (fd : List (String × String)) : List (String × String) :=
  fd.mergeSort (fun a b => decide (a.1 ≤ b.1))

/-- json.dumps(field_data, sort_keys=True) for a str-to-str dict: the
key-sorted canonical serialization, with default separators. -/
def jsonDumpsSorted (fd : List (String × String)) : String :=
  "\x7b" ++ String.intercalate ", "
    ((sortByKey fd).map (fun kv => jsonQuote kv.1 ++ ": " ++ jsonQuote kv.2)) ++ "\x7d"

/-- request_key = md5(form_url + ":" + canonical serialization); the md5
hexdigest is an arbitrary function of the input string, passed in
abstractly. -/
def request_key (hash : String → String) (formUrl : String)
    (fieldData : List (String × String)) : String :=
  hash (formUrl ++ ":" ++ jsonDumpsSorted fieldData)

/-! ## Field matcher (form_logic.py lines 156-214) -/

/-- A fillable widget as the document engine presents it: name, optional
label, kind (checkbox or not) and current value. The document is the list
of widgets in natural (page, then declaration) order. A PyMuPDF
field_name of None is modelled as the empty string. -/
structure Widget where
  name : String
  label : Option String
  isCheckbox : Bool
  value : String
deriving Repr, DecidableEq, Inhabited

/-- The truthy-token set of the exact pass. -/
def truthyPass1 : List String := ["yes", "true", "1", "on", "x"]

/-- Checkbox coercion in the exact pass. -/
def coerceCheckboxPass1 (val : String) : String :=
  if (strLower val) ∈ truthyPass1 then "Yes" else "Off"

/-- The truthy-token set of the fuzzy pass. -/
def truthyPass2 : List String := ["yes", "true", "x"]

/-- Checkbox coercion in the fuzzy pass: the token set above, or the
lowercased value occurring inside the lowercased field name. -/
def coerceCheckboxPass2 (val nameLow : String) : String :=
  if (strLower val) ∈ truthyPass2 || strContains nameLow (strLower val) then "Yes" else "Off"

/-- COMMON_MAPPINGS: the static synonym table of the fuzzy pass. -/
def COMMON_MAPPINGS : List (String × List String) :=
  [("männlich", ["geschlecht"]), ("weiblich", ["geschlecht"]), ("divers", ["geschlecht"]),
   ("ledig", ["familienstand"]), ("einzugsdatum", ["tag des einzugs"]),
   ("postleitzahl", ["plz", "postleitzahl"]), ("straße", ["strasse", "straße"])]

/-- Whether the fuzzy pass accepts widget w for the lowercased key:
direct containment in the lowercased name or label, else containment of
any synonym fragment. -/
def widgetMatchesKey (w : Widget) (kLow : String) : Bool :=
  let nameLow := (strLower w.name)
  let labelLow := strLower (w.label.getD "")
  if strContains nameLow kLow || strContains labelLow kLow then true
  else
    match COMMON_MAPPINGS.find? (fun m => m.1 = kLow) with
    | some m => m.2.any (fun frag => strContains nameLow frag || strContains labelLow frag)
    | none => false

/-- Running state of the two matching passes. -/
structure MatchState where
  widgets : List Widget
  filledCount : Nat
  unmatched : List String
  matched : List (String × String)
deriving Repr, DecidableEq

/-- field_data[key] (keys of the dict are unique and every processed key is
present). -/
def lookupVal (fd : List (String × String)) (key : String) : String :=
  ((fd.find? (fun kv => kv.1 = key)).map (fun kv => kv.2)).getD ""

/-- The widget_map entry for a name: the last widget carrying it (dict
insertion overwrites earlier widgets of the same name). -/
def lastNamed? (ws : List Widget) (key : String) : Option Widget :=
  ws.reverse.find? (fun w => w.name = key)

/-- Replace the value of the first widget with the given name. -/
def updateFirstNamed : List Widget → String → String → List Widget
  | [], _, _ => []
  | w :: ws, key, v =>
    if w.name = key then { w with value := v } :: ws
    else w :: updateFirstNamed ws key v

/-- Replace the value of the last widget with the given name (the
widget_map entry). -/
def updateLastNamed (ws : List Widget) (key : String) (v : String) : List Widget :=
  (updateFirstNamed ws.reverse key v).reverse

/-- One key of the exact pass: on a widget_map hit the value is assigned
(checkbox-coerced for checkbox widgets), the key leaves the unmatched set
and is recorded in matched_fields_info. -/
def pass1Step (fd : List (String × String)) (st : MatchState) (key : String) : MatchState :=
  match lastNamed? st.widgets key with
  | none => st
  | some w =>
    let val := lookupVal fd key
    let newVal := if w.isCheckbox then coerceCheckboxPass1 val else val
    { widgets := updateLastNamed st.widgets key newVal
      filledCount := st.filledCount + 1
      unmatched := st.unmatched.erase key
      matched := st.matched ++ [(key, w.name)] }

/-- One key of the fuzzy pass: the first widget in document order accepted
by widgetMatchesKey receives the value (checkbox-coerced with the fuzzy
rule for checkbox widgets). -/
def pass2Step (fd : List (String × String)) (st : MatchState) (key : String) : MatchState :=
  match st.widgets.findIdx? (fun w => widgetMatchesKey w (strLower key)) with
  | none => st
  | some i =>
    let w := st.widgets.getD i default
    let val := lookupVal fd key
    let newVal := if w.isCheckbox then coerceCheckboxPass2 val (strLower w.name) else val
    { widgets := st.widgets.set i { w with value := newVal }
      filledCount := st.filledCount + 1
      unmatched := st.unmatched.erase key
      matched := st.matched ++ [(key, w.name)] }

/-- Both matching passes over a document (the widgets with non-empty
names, in natural order) and a field-data dict (association list in
insertion order; set iteration is modelled as insertion order). The fuzzy
pass only visits the keys left unmatched by the exact pass. -/
def runMatch (ws : List Widget) (fd : List (String × String)) : MatchState :=
  let st0 : MatchState := ⟨ws, 0, fd.map Prod.fst, []⟩
  let st1 := fd.foldl (fun s kv => pass1Step fd s kv.1) st0
  st1.unmatched.foldl (fun s k => pass2Step fd s k) st1

/-! ## Fill orchestrator (form_logic.py perform_form_filling_logic) -/

/-- The result dict of perform_form_filling_logic, restricted to the keys
the specification talks about; keys absent from a given return dict are
none / empty. -/
structure FillResult where
  success : Bool
  status : Option String
  message : String
  savedPath : Option String
  filename : Option String
  fileId : Option String
  error : Option String
  fieldMappings : List (String × String)
  unmatchedFields : List String
deriving Repr, DecidableEq

/-- The process-external collaborators and clock of one invocation: the md5
hexdigest function, the document fetch-and-open step (download plus
fitz.open, none = the caught exception path), the wall clock, its isoformat
rendering and its strftime rendering used for generated names. -/
structure FillEnv where
  hash : String → String
  fetchDoc : String → Option (List Widget)
  now : Int
  nowIso : String
  timeStr : String

/-- Mutable state surrounding an invocation: the idempotency ledger, the
filled-form files written so far and the sync-manifest registrations. -/
structure FillState where
  protector : LoopProtector
  savedFiles : List String
  registered : List (String × String)
deriving Repr, DecidableEq

/-- FILLED_FORMS_DIR as a path prefix. -/
def FILLED_FORMS_DIR : String := "filled_forms/"

/-- The body of perform_form_filling_logic past the ledger check: reject
empty field data, fetch and open the document, normalize the output name,
index the widgets with non-empty names, run both matching passes, save the
artifact, register it and write the ledger record. -/
def fillPipeline (env : FillEnv) (st : FillState) (formUrl : String)
    (fieldData : List (String × String)) (outputFilename : Option String)
    (requestKey : String) : FillResult × FillState :=
  if fieldData.isEmpty then
    ({ success := false, status := none, message := "", savedPath := none,
       filename := none, fileId := none, error := some "No field data provided.",
       fieldMappings := [], unmatchedFields := [] }, st)
  else
    match env.fetchDoc formUrl with
    | none =>
      ({ success := false, status := none, message := "", savedPath := none,
         filename := none, fileId := none,
         error := some "Internal error during form filling.",
         fieldMappings := [], unmatchedFields := [] }, st)
    | some doc =>
      let outName0 := outputFilename.getD ("filled_" ++ env.timeStr ++ ".pdf")
      let outName := if strEndsWith outName0 ".pdf" then outName0 else outName0 ++ ".pdf"
      let finalPath := FILLED_FORMS_DIR ++ outName
      let widgets := doc.filter (fun w => w.name ≠ "")
      let m := runMatch widgets fieldData
      let fileId := (env.hash (outName ++ ":" ++ env.nowIso)).take 12
      ({ success := decide (0 < m.filledCount), status := some "COMPLETED",
         message := if 0 < m.filledCount then
             "Form filling process finished. " ++ toString m.filledCount ++
               " fields matched and filled."
           else "Form processed but no fields were matched.",
         savedPath := some finalPath, filename := some outName, fileId := some fileId,
         error := none, fieldMappings := m.matched, unmatchedFields := m.unmatched },
       { protector := st.protector.save env.now requestKey finalPath fileId
         savedFiles := st.savedFiles ++ [finalPath]
         registered := st.registered ++ [(fileId, finalPath)] })

/-- The short-circuit return of perform_form_filling_logic on a
non-bypassed ledger hit. -/
def shortCircuitResult (lastPath lastFileId : String) : FillResult :=
  { success := true, status := some "ALREADY_COMPLETED",
    message := "Form was already filled. Skipping re-execution to prevent tool loop.",
    savedPath := some lastPath, filename := some (pathName lastPath),
    fileId := some lastFileId, error := none, fieldMappings := [],
    unmatchedFields := [] }

/-- perform_form_filling_logic: compute the request fingerprint, short
circuit on a non-bypassed ledger hit, otherwise run the fill pipeline. -/
def perform_form_filling_logic (env : FillEnv) (st : FillState) (formUrl : String)
    (fieldData : List (String × String)) (outputFilename : Option String)
    (forceRecompute : Bool) : FillResult × FillState :=
  match st.protector.check (request_key env.hash formUrl fieldData) with
  | some (lastPath, lastFileId) =>
    if forceRecompute then
      fillPipeline env st formUrl fieldData outputFilename
        (request_key env.hash formUrl fieldData)
    else (shortCircuitResult lastPath lastFileId, st)
  | none =>
    fillPipeline env st formUrl fieldData outputFilename
      (request_key env.hash formUrl fieldData)

/-! ## download_filled_form_logic (form_logic.py lines 268-348) -/

/-- Standard base64 alphabet. -/
def base64Chars : String :=
  "ABCDEFGHIJKLMNOPQRSTUVWXYZabcdefghijklmnopqrstuvwxyz0123456789+/"

/-- Character of the base64 alphabet at an index. -/
def b64Char (n : Nat) : Char := base64Chars.data.getD n 'A'

/-- base64.b64encode of a byte sequence, decoded to text. -/
def base64Encode : List Nat → String
  | [] => ""
  | [a] =>
    String.mk [b64Char (a / 4 % 64), b64Char (a % 4 * 16)] ++ "=="
  | [a, b] =>
    String.mk [b64Char (a / 4 % 64), b64Char (a % 4 * 16 + b / 16 % 16),
               b64Char (b % 16 * 4)] ++ "="
  | a :: b :: c :: rest =>
    String.mk [b64Char (a / 4 % 64), b64Char (a % 4 * 16 + b / 16 % 16),
               b64Char (b % 16 * 4 + c / 64 % 4), b64Char (c % 64)] ++ base64Encode rest

/-- The result dict of download_filled_form_logic, restricted to the keys
the specification talks about. -/
structure DownloadResult where
  success : Bool
  error : Option String
  filename : Option String
  sizeBytes : Option Nat
  savedPath : Option String
  message : String
  warning : Option String
  contentBase64 : Option String
  instructions : Option String
  fieldPreview : List (String × String)
deriving Repr, DecidableEq

/-- The inline-transfer size threshold (200 KiB). -/
def SAFE_THRESHOLD : Nat := 200 * 1024

/-- download_filled_form_logic. Inputs: deployment flags, the requested
file as stored bytes (none = not on disk), the field-value summary the
preview extraction yields, the request arguments. Output: the result dict
and the file bytes still on disk afterwards (none once deleted). -/
def download_filled_form_logic (isCloud isRemote : Bool) (file : Option (List Nat))
    (summary : List (String × String)) (filename : String)
    (deleteAfterRead : Option Bool) (onlyPreview ignoreSizeLimit : Bool) :
    DownloadResult × Option (List Nat) :=
  let dar := if onlyPreview then false else deleteAfterRead.getD isCloud
  let safe := pathName filename
  match file with
  | none =>
    ({ success := false, error := some ("File \x27" ++ filename ++ "\x27 not found on server."),
       filename := none, sizeBytes := none, savedPath := none, message := "",
       warning := none, contentBase64 := none, instructions := none,
       fieldPreview := [] }, none)
  | some bytes =>
    let size := bytes.length
    if !isCloud && !isRemote then
      ({ success := true, error := none, filename := some safe, sizeBytes := some size,
         savedPath := some (FILLED_FORMS_DIR ++ safe),
         message := "File \x27" ++ safe ++ "\x27 is available on your local system.",
         warning := none, contentBase64 := none,
         instructions := some "Use open_file_locally to view it.",
         fieldPreview := [] }, some bytes)
    else
      if decide (size > SAFE_THRESHOLD) && !ignoreSizeLimit && !onlyPreview then
        ({ success := true, error := none, filename := some safe, sizeBytes := some size,
           savedPath := none,
           message := "File \x27" ++ safe ++ "\x27 is ready for retrieval.",
           warning := some "FILE READY FOR DOWNLOAD", contentBase64 := none,
           instructions := some ("Use resource \x27berlin://forms/" ++ safe ++ "\x27"),
           fieldPreview := summary }, some bytes)
      else
        let encoded := base64Encode bytes
        let fileAfter := if dar then none else some bytes
        if onlyPreview then
          ({ success := true, error := none, filename := some safe, sizeBytes := some size,
             savedPath := none,
             message := "Successfully retrieved \x27" ++ safe ++ "\x27.",
             warning := none, contentBase64 := none,
             instructions := some "Preview only.", fieldPreview := summary }, fileAfter)
        else
          ({ success := true, error := none, filename := some safe, sizeBytes := some size,
             savedPath := none,
             message := "Successfully retrieved \x27" ++ safe ++ "\x27.",
             warning := none, contentBase64 := some encoded,
             instructions := some "Decode \x27content_base64\x27 and save as .pdf.",
             fieldPreview := summary }, fileAfter)

/-! ## delete_filled_form (tools.py lines 286-293) -/

/-- The result dict of the delete tool. -/
structure DeleteResult where
  success : Bool
  message : Option String
  error : Option String
deriving Repr, DecidableEq

/-- delete_filled_form: the filled-forms directory is the list of file
names present; the file is removed when present, otherwise a structured
failure (success false, error "Not found.") is returned. -/
def delete_filled_form (files : List String) (filename : String) :
    DeleteResult × List String :=
  let safe := pathName filename
  if safe ∈ files then
    ({ success := true, message := some "Deleted.", error := none }, files.erase safe)
  else
    ({ success := false, message := none, error := some "Not found." }, files)

/-- Modelled from the spec (claim C4 wording, for refutation): the value
the claim says a checkbox matched in the fuzzy pass receives - the
truthy-token set of the exact pass, with containment of the key itself
inside the field name as an additional affirmative signal. -/
def specClaimedPass2CheckboxValue (key val fieldName : String) : String :=
  if (strLower val) ∈ truthyPass1 || strContains (strLower fieldName) (strLower key)
  then "Yes" else "Off"

/-! ## Helper lemmas -/

/-- A successful key lookup forces the JSON value to be a non-empty object,
hence truthy. -/
theorem Json.truthy_of_get? {j : Json} {k : String} {v : Json}
    (h : j.get? k = some v) : j.truthy = true := by
  cases j <;> simp [Json.get?] at h
  case obj kvs =>
    cases kvs with
    | nil => simp [List.find?] at h
    | cons a as => simp [Json.truthy]

/-! ## C6: ledger load-time eviction -/

/-- C6: constructing the LoopProtector discards every stored record more
than 24 hours old before the index is built, retains every record younger
than 24 hours, and check finds nothing for a key all of whose stored
records are more than 24 hours old. -/
theorem loopProtector_load_eviction :
    (∀ (stored : List (String × Int × String × String)) (now : Int)
       (e : String × Int × String × String),
       e ∈ stored → 86400 < now - e.2.1 →
       e ∉ (LoopProtector.load (some stored) now).hashes)
    ∧ (∀ (stored : List (String × Int × String × String)) (now : Int)
       (e : String × Int × String × String),
       e ∈ stored → now - e.2.1 < 86400 →
       e ∈ (LoopProtector.load (some stored) now).hashes)
    ∧ (∀ (stored : List (String × Int × String × String)) (now : Int) (k : String),
       (∀ e ∈ stored, e.1 = k → 86400 < now - e.2.1) →
       (LoopProtector.load (some stored) now).check k = none) := by
  refine ⟨?_, ?_, ?_⟩
  · intro stored now e _he hold hmem
    simp only [LoopProtector.load, List.mem_filter, decide_eq_true_eq] at hmem
    omega
  · intro stored now e he hyoung
    simp only [LoopProtector.load, List.mem_filter, decide_eq_true_eq]
    exact ⟨he, hyoung⟩
  · intro stored now k h
    have hf : List.find? (fun kv => decide (kv.1 = k))
        (LoopProtector.load (some stored) now).hashes = none := by
      rw [List.find?_eq_none]
      intro e hmem
      simp only [LoopProtector.load, List.mem_filter, decide_eq_true_eq] at hmem
      simp only [decide_eq_true_eq]
      intro hk
      have := h e hmem.1 hk
      omega
    simp [LoopProtector.check, hf]

/-- Witness for C6: a record 25 hours old (age 90000 s) is evicted and
invisible to check, one an hour old is retained. -/
theorem loopProtector_load_eviction_witness :
    ("k", (-90000 : Int), "p", "f") ∉
      (LoopProtector.load (some [("k", -90000, "p", "f"), ("j", -3600, "q", "g")]) 0).hashes
    ∧ ("j", (-3600 : Int), "q", "g") ∈
      (LoopProtector.load (some [("k", -90000, "p", "f"), ("j", -3600, "q", "g")]) 0).hashes
    ∧ (LoopProtector.load (some [("k", -90000, "p", "f")]) 0).check "k" = none :=
  ⟨loopProtector_load_eviction.1 _ 0 _ (by decide) (by decide),
   loopProtector_load_eviction.2.1 _ 0 _ (by decide) (by decide),
   loopProtector_load_eviction.2.2 _ 0 _ (by decide)⟩

/-! ## C7: cache record validity -/

/-- C7: a cache timestamp is valid exactly when now - storedAt < ttl, a
record aged ttl + 1 is invalid, and a disk record with a missing or
unparseable timestamp is a miss, not an error. -/
theorem cache_ttl_validity :
    (∀ (ttl now : Int) (ts : Option Int),
       CacheManager.is_valid ttl now ts = true ↔ ∃ t, ts = some t ∧ now - t < ttl)
    ∧ (∀ ttl now : Int, CacheManager.is_valid ttl now (some (now - (ttl + 1))) = false)
    ∧ (∀ (ttl now : Int) (cached : Json),
       (cached.get? "_timestamp").bind parseTimestamp = none →
       CacheManager.get_disk ttl now (some cached) = (none, false)) := by
  refine ⟨?_, ?_, ?_⟩
  · intro ttl now ts
    cases ts <;> simp [CacheManager.is_valid]
  · intro ttl now
    simp [CacheManager.is_valid]
  · intro ttl now cached h
    simp [CacheManager.get_disk, h]

/-- Witness for C7: validity at a concrete fresh record, invalidity one
second past the TTL, and a timestamp-free disk record treated as a miss. -/
theorem cache_ttl_validity_witness :
    (CacheManager.is_valid 10 7 (some 5) = true ↔ ∃ t, (some 5 : Option Int) = some t ∧ 7 - t < 10)
    ∧ CacheManager.is_valid 3600 0 (some (0 - (3600 + 1))) = false
    ∧ CacheManager.get_disk 3600 0 (some (Json.obj [])) = (none, false) :=
  ⟨cache_ttl_validity.1 10 7 (some 5),
   cache_ttl_validity.2.1 3600 0,
   cache_ttl_validity.2.2 3600 0 (Json.obj []) (by rfl)⟩

/-! ## C9: deletion of an absent file -/

/-- C9 counterexample: deleting an already-absent filled form does produce
a failure result (success false with error "Not found."), contrary to the
claim that absence is not an error. -/
theorem delete_absent_is_failure :
    (delete_filled_form [] "missing.pdf").1.success = false
    ∧ (delete_filled_form [] "missing.pdf").1.error = some "Not found." :=
  ⟨rfl, rfl⟩

/-- C9 amended: the delete operation removes the file if present; deleting
an already-absent filled form returns a structured failure (success false,
error "Not found.") without raising, leaving the directory unchanged. -/
theorem delete_filled_form_behavior (files : List String) (filename : String) :
    (pathName filename ∈ files →
       (delete_filled_form files filename).1.success = true
       ∧ (delete_filled_form files filename).2 = files.erase (pathName filename))
    ∧ (pathName filename ∉ files →
       (delete_filled_form files filename).1.success = false
       ∧ (delete_filled_form files filename).1.error = some "Not found."
       ∧ (delete_filled_form files filename).2 = files) := by
  constructor
  · intro h
    simp [delete_filled_form, h]
  · intro h
    simp [delete_filled_form, h]

/-- Witness for C9: deleting a present file succeeds and removes it. -/
theorem delete_filled_form_behavior_witness :
    (delete_filled_form ["a.pdf"] "a.pdf").1.success = true
    ∧ (delete_filled_form ["a.pdf"] "a.pdf").2 = ["a.pdf"].erase (pathName "a.pdf") :=
  (delete_filled_form_behavior ["a.pdf"] "a.pdf").1 (by decide)

/-- The memory-hit flag of get_memory is exactly the validity test of the
memory timestamp. -/
theorem get_memory_snd (ttl now : Int) (st : CacheState) :
    (CacheManager.get_memory ttl now st).2 = CacheManager.is_valid ttl now st.memTs := by
  unfold CacheManager.get_memory
  rcases h : CacheManager.is_valid ttl now st.memTs with _ | _ <;> simp [h]

/-- A validated live payload is truthy. -/
theorem validPayload_truthy {d : Json} (h : validPayload d = true) : d.truthy = true := by
  unfold validPayload at h
  rcases hg : d.get? "data" with _ | v
  · rw [hg] at h; simp at h
  · exact Json.truthy_of_get? hg

/-- The disk-or-fallback tail always returns a truthy snapshot. -/
theorem fetchDiskFallback_truthy (ttl now : Int) (st : CacheState) (force : Bool) :
    ((fetchDiskFallback ttl now st force).1.1).truthy = true := by
  unfold fetchDiskFallback
  rcases force with _ | _
  · simp only [Bool.false_eq_true, if_false]
    rcases hd : (CacheManager.get_disk ttl now st.disk).1 with _ | p
    · rfl
    · rcases hp : p.truthy with _ | _ <;> simp [hp]
      rfl
  · rfl

/-! ## C3: catalog fetch cascade -/

/-- C3 counterexample: a TTL-valid disk record whose stored payload is
falsy (an empty dict) is not returned tagged disk; the cascade falls
through to the fallback dataset, because the disk step additionally
requires a truthy payload. -/
theorem fetch_valid_disk_falsy_payload_falls_back :
    (CacheManager.get_disk 3600 1000000
       (some (Json.obj [("data", Json.obj []), ("_timestamp", Json.num 999000)]))).2 = true
    ∧ (fetch_services_data 3600 1000000 none
        ⟨none, none, some (Json.obj [("data", Json.obj []), ("_timestamp", Json.num 999000)])⟩
        false).1.2 = "fallback" :=
  ⟨rfl, rfl⟩

/-- C3 amended: fetch_services_data always returns some snapshot; the
memory tier is served first when TTL-valid and not bypassed, then a
validated live payload is stored in both tiers and served, then a
TTL-valid disk record is served provided its payload is truthy
(non-empty), otherwise the embedded fallback dataset; the returned data is
truthy (never empty) provided the memory tier, when valid, holds a truthy
snapshot. -/
theorem fetch_services_cascade (ttl now : Int) (live : Option Json) (st : CacheState)
    (force : Bool)
    (hmem : CacheManager.is_valid ttl now st.memTs = true →
            (st.memCache.getD Json.null).truthy = true) :
    ((fetch_services_data ttl now live st force).1.2 = "memory"
      ∨ (fetch_services_data ttl now live st force).1.2 = "live"
      ∨ (fetch_services_data ttl now live st force).1.2 = "disk"
      ∨ (fetch_services_data ttl now live st force).1.2 = "fallback")
    ∧ (force = false → CacheManager.is_valid ttl now st.memTs = true →
        fetch_services_data ttl now live st force
          = ((st.memCache.getD Json.null, "memory"), st))
    ∧ (∀ d, live = some d → validPayload d = true →
        (force = true ∨ CacheManager.is_valid ttl now st.memTs = false) →
        fetch_services_data ttl now live st force
          = ((d, "live"), CacheManager.set st d now))
    ∧ (∀ p, force = false → CacheManager.is_valid ttl now st.memTs = false →
        (∀ d, live = some d → validPayload d = false) →
        (CacheManager.get_disk ttl now st.disk).1 = some p → p.truthy = true →
        fetch_services_data ttl now live st force = ((p, "disk"), st))
    ∧ ((force = true ∨ CacheManager.is_valid ttl now st.memTs = false) →
        (∀ d, live = some d → validPayload d = false) →
        (force = true ∨ ∀ p, (CacheManager.get_disk ttl now st.disk).1 = some p →
           p.truthy = false) →
        fetch_services_data ttl now live st force = ((fallbackData, "fallback"), st))
    ∧ (fetch_services_data ttl now live st force).1.1.truthy = true := by
  have hfb : fallbackData.truthy = true := rfl
  refine ⟨?_, ?_, ?_, ?_, ?_, ?_⟩
  · unfold fetch_services_data fetchDiskFallback
    rcases hv : CacheManager.is_valid ttl now st.memTs with _ | _ <;>
      rcases force with _ | _ <;>
      simp [CacheManager.get_memory, hv] <;>
      rcases live with _ | d <;>
      simp <;>
      first
        | (rcases hvp : validPayload d with _ | _ <;> simp [hvp] <;>
            rcases hd : (CacheManager.get_disk ttl now st.disk).1 with _ | p <;> simp [hd] <;>
            rcases hp : p.truthy with _ | _ <;> simp [hp])
        | (rcases hd : (CacheManager.get_disk ttl now st.disk).1 with _ | p <;> simp [hd] <;>
            rcases hp : p.truthy with _ | _ <;> simp [hp])
  · intro hforce hv
    simp [fetch_services_data, CacheManager.get_memory, hforce, hv]
  · intro d hl hvp hbypass
    subst hl
    rcases hbypass with hforce | hv
    · subst hforce
      simp [fetch_services_data, hvp]
    · simp [fetch_services_data, CacheManager.get_memory, hv, hvp]
  · intro p hforce hv hlive hd hp
    subst hforce
    rcases live with _ | d
    · simp [fetch_services_data, CacheManager.get_memory, hv, fetchDiskFallback, hd, hp]
    · have := hlive d rfl
      simp [fetch_services_data, CacheManager.get_memory, hv, this, fetchDiskFallback, hd, hp]
  · intro hbypass hlive hdisk
    have hlive2 : ∀ d, live = some d → validPayload d = false := hlive
    rcases force with _ | _
    · rcases hbypass with hforce | hv
      · exact absurd hforce (by simp)
      · rcases live with _ | d
        · rcases hdisk with hforce | hdisk
          · exact absurd hforce (by simp)
          · simp only [fetch_services_data, CacheManager.get_memory, hv]
            simp [fetchDiskFallback]
            rcases hd : (CacheManager.get_disk ttl now st.disk).1 with _ | p
            · simp
            · simp [hdisk p hd]
        · rcases hdisk with hforce | hdisk
          · exact absurd hforce (by simp)
          · have hvp := hlive2 d rfl
            simp only [fetch_services_data, CacheManager.get_memory, hv]
            simp [hvp, fetchDiskFallback]
            rcases hd : (CacheManager.get_disk ttl now st.disk).1 with _ | p
            · simp
            · simp [hdisk p hd]
    · rcases live with _ | d
      · simp [fetch_services_data, fetchDiskFallback]
      · have hvp := hlive2 d rfl
        simp [fetch_services_data, hvp, fetchDiskFallback]
  · rcases hcond : (!force && (CacheManager.get_memory ttl now st).2) with _ | _
    · rw [fetch_services_data.eq_def, hcond]
      simp only [Bool.false_eq_true, if_false]
      rcases live with _ | d
      · exact fetchDiskFallback_truthy ttl now st force
      · rcases hvp : validPayload d with _ | _
        · simp only [hvp, Bool.false_eq_true, if_false]
          exact fetchDiskFallback_truthy ttl now st force
        · simp only [hvp, if_true]
          exact validPayload_truthy hvp
    · rw [fetch_services_data.eq_def, hcond]
      simp only [if_true]
      have hv : CacheManager.is_valid ttl now st.memTs = true := by
        have := (Bool.and_eq_true _ _).mp hcond
        rw [← get_memory_snd ttl now st]
        exact this.2
      simp only [CacheManager.get_memory, hv, if_true]
      exact hmem hv

/-- Witness for C3: on an empty cache state with the upstream down, the
returned snapshot is truthy (never empty). -/
theorem fetch_services_cascade_witness :
    (fetch_services_data 3600 0 none ⟨none, none, none⟩ false).1.1.truthy = true :=
  (fetch_services_cascade 3600 0 none ⟨none, none, none⟩ false
    (by simp [CacheManager.is_valid])).2.2.2.2.2

/-- The disk-or-fallback tail never mutates the cache state. -/
theorem fetchDiskFallback_snd (ttl now : Int) (st : CacheState) (force : Bool) :
    (fetchDiskFallback ttl now st force).2 = st := by
  unfold fetchDiskFallback
  rcases force with _ | _
  · simp only [Bool.false_eq_true, if_false]
    rcases hd : (CacheManager.get_disk ttl now st.disk).1 with _ | p
    · rfl
    · rcases hp : p.truthy with _ | _ <;> simp [hp]
  · rfl

/-- Every snapshot the fetch stores into the memory tier is truthy, so the
truthiness hypothesis of the cascade theorem is an invariant the code
maintains. -/
theorem fetch_preserves_memory_invariant (ttl now : Int) (live : Option Json)
    (st : CacheState) (force : Bool)
    (hmem : ∀ d, st.memCache = some d → d.truthy = true) :
    ∀ d, (fetch_services_data ttl now live st force).2.memCache = some d →
      d.truthy = true := by
  intro d hd
  rcases hcond : (!force && (CacheManager.get_memory ttl now st).2) with _ | _ <;>
    rw [fetch_services_data.eq_def, hcond] at hd
  · simp only [Bool.false_eq_true, if_false] at hd
    rcases live with _ | p
    · simp only [fetchDiskFallback_snd] at hd
      exact hmem d hd
    · rcases hvp : validPayload p with _ | _
      · simp only [hvp, Bool.false_eq_true, if_false, fetchDiskFallback_snd] at hd
        exact hmem d hd
      · simp only [hvp, if_true, CacheManager.set] at hd
        cases hd
        exact validPayload_truthy hvp
  · simp only [if_true] at hd
    exact hmem d hd

/-! ## C8: inline-versus-pull delivery threshold -/

/-- C8: in remote or cloud mode, for an existing file requested without
only_preview and without ignore_size_limit, a file of at most 200 KiB is
delivered inline as base64 content, while a file strictly over the
threshold carries no bytes and directs the caller to the pull-based
resource. -/
theorem download_size_threshold (isCloud isRemote : Bool) (bytes : List Nat)
    (summary : List (String × String)) (filename : String) (dar : Option Bool)
    (hmode : isCloud = true ∨ isRemote = true) :
    (bytes.length ≤ SAFE_THRESHOLD →
       (download_filled_form_logic isCloud isRemote (some bytes) summary filename
          dar false false).1.contentBase64 = some (base64Encode bytes))
    ∧ (SAFE_THRESHOLD < bytes.length →
       (download_filled_form_logic isCloud isRemote (some bytes) summary filename
          dar false false).1.contentBase64 = none
       ∧ (download_filled_form_logic isCloud isRemote (some bytes) summary filename
            dar false false).1.instructions
          = some ("Use resource \x27berlin://forms/" ++ pathName filename ++ "\x27")
       ∧ (download_filled_form_logic isCloud isRemote (some bytes) summary filename
            dar false false).1.warning = some "FILE READY FOR DOWNLOAD") := by
  have hm : (!isCloud && !isRemote) = false := by
    rcases hmode with h | h <;> simp [h]
  constructor
  · intro hle
    have hsz : decide (bytes.length > SAFE_THRESHOLD) = false := by
      simp only [decide_eq_false_iff_not, gt_iff_lt, not_lt]
      exact hle
    simp [download_filled_form_logic, hm, hsz]
  · intro hgt
    have hsz : decide (bytes.length > SAFE_THRESHOLD) = true := by
      simp only [decide_eq_true_eq, gt_iff_lt]
      exact hgt
    refine ⟨?_, ?_, ?_⟩ <;> simp [download_filled_form_logic, hm, hsz]

/-- Witness for C8 at a one-byte file in cloud mode: it is inline-eligible. -/
theorem download_size_threshold_witness :
    (download_filled_form_logic true false (some [0]) [] "a.pdf" none
       false false).1.contentBase64 = some (base64Encode [0]) :=
  (download_size_threshold true false [0] [] "a.pdf" none (Or.inl rfl)).1 (by decide)

/-! ## C2: fingerprint stability under key reordering -/

/-- Two field-data dicts with the same entries (in any order) and unique
keys have identical key-sorted item sequences. -/
theorem sortByKey_perm_eq {d₁ d₂ : List (String × String)} (hp : d₁.Perm d₂)
    (hnd : (d₁.map Prod.fst).Nodup) : sortByKey d₁ = sortByKey d₂ := by
  have htrans : ∀ (a b c : String × String),
      decide (a.1 ≤ b.1) = true → decide (b.1 ≤ c.1) = true →
      decide (a.1 ≤ c.1) = true := by
    intro a b c hab hbc
    simp only [decide_eq_true_eq] at hab hbc ⊢
    exact le_trans hab hbc
  have htotal : ∀ (a b : String × String),
      (decide (a.1 ≤ b.1) || decide (b.1 ≤ a.1)) = true := by
    intro a b
    simpa using le_total a.1 b.1
  have p : (sortByKey d₁).Perm (sortByKey d₂) :=
    ((List.mergeSort_perm d₁ _).trans hp).trans (List.mergeSort_perm d₂ _).symm
  have hnd₁ : ((sortByKey d₁).map Prod.fst).Nodup :=
    (((List.mergeSort_perm d₁ _).map Prod.fst).symm).nodup hnd
  have hnd₂ : ((sortByKey d₂).map Prod.fst).Nodup := (p.map Prod.fst).nodup hnd₁
  have strict : ∀ (l : List (String × String)),
      l.Pairwise (fun a b => decide (a.1 ≤ b.1) = true) →
      (l.map Prod.fst).Nodup →
      l.Pairwise (fun a b : String × String => a.1 < b.1) := by
    intro l hle hndl
    have hne : l.Pairwise (fun a b : String × String => a.1 ≠ b.1) :=
      (List.pairwise_map).mp hndl
    refine (hle.and hne).imp ?_
    intro a b h
    exact lt_of_le_of_ne (by simpa using h.1) h.2
  have s₁ : (sortByKey d₁).Pairwise (fun a b : String × String => a.1 < b.1) :=
    strict _ (List.sorted_mergeSort htrans htotal d₁) hnd₁
  have s₂ : (sortByKey d₂).Pairwise (fun a b : String × String => a.1 < b.1) :=
    strict _ (List.sorted_mergeSort htrans htotal d₂) hnd₂
  haveI : IsAntisymm (String × String) (fun a b => a.1 < b.1) :=
    ⟨fun _ _ h₁ h₂ => absurd (lt_trans h₁ h₂) (lt_irrefl _)⟩
  exact List.eq_of_perm_of_sorted p s₁ s₂

/-- C2: permuting the key order of an equal-content field-data map (keys
unique, as in a Python dict) yields an identical request fingerprint, for
any hash function, because the canonical serialization sorts keys first. -/
theorem request_key_perm_invariant (hash : String → String) (url : String)
    {d₁ d₂ : List (String × String)} (hp : d₁.Perm d₂)
    (hnd : (d₁.map Prod.fst).Nodup) :
    request_key hash url d₁ = request_key hash url d₂ := by
  unfold request_key jsonDumpsSorted
  rw [sortByKey_perm_eq hp hnd]

/-- Witness for C2: two orderings of the same two-entry map fingerprint
identically. -/
theorem request_key_perm_invariant_witness :
    request_key id "u" [("b", "2"), ("a", "1")]
      = request_key id "u" [("a", "1"), ("b", "2")] :=
  request_key_perm_invariant id "u" (by decide) (by decide)

/-! ## C4: checkbox coercion -/

/-- Membership after updating the first widget of a given name: a widget of
the result is an original widget or the found widget with the new value. -/
theorem mem_updateFirstNamed {ws : List Widget} {key v : String} {w : Widget}
    (h : w ∈ updateFirstNamed ws key v) :
    w ∈ ws ∨ ∃ w₀, ws.find? (fun x => x.name = key) = some w₀
      ∧ w = { w₀ with value := v } := by
  induction ws with
  | nil => simp [updateFirstNamed] at h
  | cons a as ih =>
    by_cases ha : a.name = key
    · simp only [updateFirstNamed, if_pos ha] at h
      rcases List.mem_cons.mp h with h | h
      · right
        exact ⟨a, by rw [List.find?_cons_of_pos _ (by simpa using ha)], h⟩
      · left
        exact List.mem_cons_of_mem _ h
    · simp only [updateFirstNamed, if_neg ha] at h
      rcases List.mem_cons.mp h with h | h
      · left
        simp [h]
      · rcases ih h with h | ⟨w₀, hf, he⟩
        · left
          exact List.mem_cons_of_mem _ h
        · right
          refine ⟨w₀, ?_, he⟩
          rw [List.find?_cons_of_neg _ (by simpa using ha)]
          exact hf

/-- Membership after updating the last widget of a given name (the
widget_map entry). -/
theorem mem_updateLastNamed {ws : List Widget} {key v : String} {w : Widget}
    (h : w ∈ updateLastNamed ws key v) :
    w ∈ ws ∨ ∃ w₀, lastNamed? ws key = some w₀ ∧ w = { w₀ with value := v } := by
  unfold updateLastNamed at h
  rw [List.mem_reverse] at h
  rcases mem_updateFirstNamed h with h | hex
  · left
    exact List.mem_reverse.mp h
  · right
    exact hex

/-- The exact-pass coercion always yields a binary state. -/
theorem coerceCheckboxPass1_binary (val : String) :
    coerceCheckboxPass1 val = "Yes" ∨ coerceCheckboxPass1 val = "Off" := by
  unfold coerceCheckboxPass1
  split <;> simp

/-- The fuzzy-pass coercion always yields a binary state. -/
theorem coerceCheckboxPass2_binary (val nameLow : String) :
    coerceCheckboxPass2 val nameLow = "Yes" ∨ coerceCheckboxPass2 val nameLow = "Off" := by
  unfold coerceCheckboxPass2
  split <;> simp

/-- A widget surviving one exact-pass step is an original widget or carries
a binary value if it is a checkbox. -/
theorem pass1Step_mem {fd : List (String × String)} {st : MatchState} {key : String}
    {w : Widget} (h : w ∈ (pass1Step fd st key).widgets) :
    w ∈ st.widgets ∨ (w.isCheckbox = true → w.value = "Yes" ∨ w.value = "Off") := by
  unfold pass1Step at h
  rcases hl : lastNamed? st.widgets key with _ | w'
  · rw [hl] at h
    exact Or.inl h
  · rw [hl] at h
    simp only at h
    rcases mem_updateLastNamed h with h | ⟨w₀, hf, he⟩
    · exact Or.inl h
    · right
      intro hcb
      have hww : w₀ = w' := by
        rw [hl] at hf
        exact (Option.some.inj hf).symm
      subst hww
      subst he
      simp only at hcb
      simp only [hcb, if_true]
      exact coerceCheckboxPass1_binary _
  
/-- A widget surviving one fuzzy-pass step is an original widget or carries
a binary value if it is a checkbox. -/
theorem pass2Step_mem {fd : List (String × String)} {st : MatchState} {key : String}
    {w : Widget} (h : w ∈ (pass2Step fd st key).widgets) :
    w ∈ st.widgets ∨ (w.isCheckbox = true → w.value = "Yes" ∨ w.value = "Off") := by
  unfold pass2Step at h
  rcases hi : st.widgets.findIdx? (fun x => widgetMatchesKey x (strLower key)) with _ | i
  · rw [hi] at h
    exact Or.inl h
  · rw [hi] at h
    simp only at h
    rcases List.mem_or_eq_of_mem_set h with h | he
    · exact Or.inl h
    · right
      intro hcb
      subst he
      simp only at hcb
      simp only [hcb, if_true]
      exact coerceCheckboxPass2_binary _ _

/-- Folding a pass step over keys preserves the membership-or-binary
property of widgets. -/
theorem foldl_widgets_mem {α : Type} {step : MatchState → α → MatchState}
    (hstep : ∀ (st : MatchState) (a : α) (w : Widget), w ∈ (step st a).widgets →
       w ∈ st.widgets ∨ (w.isCheckbox = true → w.value = "Yes" ∨ w.value = "Off")) :
    ∀ (l : List α) (st : MatchState) (w : Widget),
      w ∈ (l.foldl step st).widgets →
      w ∈ st.widgets ∨ (w.isCheckbox = true → w.value = "Yes" ∨ w.value = "Off") := by
  intro l
  induction l with
  | nil => intro st w h; exact Or.inl h
  | cons a as ih =>
    intro st w h
    rcases ih (step st a) w h with h | h
    · exact hstep st a w h
    · exact Or.inr h

/-- C4 counterexample: a fuzzy-pass checkbox match given the value "on"
(claimed truthy) is set to "Off" because the fuzzy pass uses the smaller
token set and tests the value, not the key, for name containment; and a
fuzzy-pass checkbox whose key is contained in the field name (the claimed
affirmative signal) still coerces the value "off" to "Off". -/
theorem checkbox_pass2_claim_counterexample :
    ((runMatch [⟨"geschlecht", none, true, ""⟩] [("männlich", "on")]).widgets.map
        Widget.value = ["Off"])
    ∧ specClaimedPass2CheckboxValue "männlich" "on" "geschlecht" = "Yes"
    ∧ ((runMatch [⟨"x1_box", none, true, ""⟩] [("x1", "off")]).widgets.map
        Widget.value = ["Off"])
    ∧ specClaimedPass2CheckboxValue "x1" "off" "x1_box" = "Yes" :=
  ⟨by decide, by decide, by decide, by decide⟩

/-- C4 amended: every checkbox widget touched by either pass ends binary
(on/off, never unset); the exact pass turns exactly the case-insensitive
tokens yes/true/1/on/x into the on state; the fuzzy pass turns exactly the
case-insensitive tokens yes/true/x, or a value contained in the lowercased
field name, into the on state. -/
theorem checkbox_assignment_binary :
    (∀ (ws : List Widget) (fd : List (String × String)) (w : Widget),
       w ∈ (runMatch ws fd).widgets → w.isCheckbox = true →
       w ∈ ws ∨ w.value = "Yes" ∨ w.value = "Off")
    ∧ (∀ val : String,
       (coerceCheckboxPass1 val = "Yes" ↔ (strLower val) ∈ truthyPass1)
       ∧ (coerceCheckboxPass1 val = "Yes" ∨ coerceCheckboxPass1 val = "Off"))
    ∧ (∀ val nameLow : String,
       (coerceCheckboxPass2 val nameLow = "Yes" ↔
          ((strLower val) ∈ truthyPass2 ∨ strContains nameLow (strLower val) = true))
       ∧ (coerceCheckboxPass2 val nameLow = "Yes"
          ∨ coerceCheckboxPass2 val nameLow = "Off")) := by
  refine ⟨?_, ?_, ?_⟩
  · intro ws fd w h hcb
    simp only [runMatch] at h
    rcases foldl_widgets_mem (fun _ _ _ hm => pass2Step_mem hm) _ _ _ h with h | hbin
    · rcases foldl_widgets_mem (fun _ _ _ hm => pass1Step_mem hm) _ _ _ h with h | hbin
      · exact Or.inl h
      · exact Or.inr (hbin hcb)
    · exact Or.inr (hbin hcb)
  · intro val
    constructor
    · unfold coerceCheckboxPass1
      by_cases hc : (strLower val) ∈ truthyPass1 <;> simp [hc]
    · exact coerceCheckboxPass1_binary val
  · intro val nameLow
    constructor
    · unfold coerceCheckboxPass2
      by_cases hc : ((strLower val) ∈ truthyPass2 || strContains nameLow (strLower val)) = true
      · rw [if_pos hc]
        simpa using hc
      · rw [if_neg hc]
        constructor
        · intro hcon
          exact absurd hcon (by simp)
        · intro hcon
          exact absurd (by simpa using hcon) hc
    · exact coerceCheckboxPass2_binary val nameLow

/-- Witness for C4: an exact-pass checkbox given the value "x" ends up in
the document with the binary value "Yes". -/
theorem checkbox_assignment_binary_witness :
    (⟨"cb", none, true, "Yes"⟩ : Widget) ∈ [(⟨"cb", none, true, ""⟩ : Widget)]
      ∨ Widget.value ⟨"cb", none, true, "Yes"⟩ = "Yes"
      ∨ Widget.value ⟨"cb", none, true, "Yes"⟩ = "Off" :=
  checkbox_assignment_binary.1 [⟨"cb", none, true, ""⟩] [("cb", "x")]
    ⟨"cb", none, true, "Yes"⟩ (by decide) rfl

/-! ## C1, C5, C10: orchestrator behavior -/

/-- Lookup after a dict replacement at an existing key. -/
theorem find?_map_replace (l : List (String × Int × String × String)) (key : String)
    (v : Int × String × String) (h : l.any (fun kv => kv.1 = key) = true) :
    (l.map (fun kv => if kv.1 = key then (key, v) else kv)).find?
      (fun kv => kv.1 = key) = some (key, v) := by
  induction l with
  | nil => simp at h
  | cons a as ih =>
    by_cases ha : a.1 = key
    · simp only [List.map_cons, if_pos ha]
      rw [List.find?_cons_of_pos _ (by simp)]
    · have h' : as.any (fun kv => kv.1 = key) = true := by
        simp only [List.any_cons, Bool.or_eq_true, decide_eq_true_eq] at h
        rcases h with h | h
        · exact absurd h ha
        · simpa using h
      simp only [List.map_cons, if_neg ha]
      rw [List.find?_cons_of_neg _ (by simpa using ha)]
      exact ih h'

/-- Lookup after a dict insertion of a fresh key. -/
theorem find?_append_new (l : List (String × Int × String × String)) (key : String)
    (v : Int × String × String) (h : l.any (fun kv => kv.1 = key) = false) :
    ((l ++ [(key, v)]).find? (fun kv => kv.1 = key)) = some (key, v) := by
  induction l with
  | nil => simp
  | cons a as ih =>
    simp only [List.any_cons, Bool.or_eq_false_iff, decide_eq_false_iff_not] at h
    rw [List.cons_append, List.find?_cons_of_neg _ (by simpa using h.1)]
    exact ih (by simpa using h.2)

/-- After recording a fingerprint, check finds exactly its artifact. -/
theorem check_save (p : LoopProtector) (now : Int) (key path fid : String) :
    (p.save now key path fid).check key = some (path, fid) := by
  unfold LoopProtector.save LoopProtector.check
  rcases h : p.hashes.any (fun kv => kv.1 = key) with _ | _
  · simp only [Bool.false_eq_true, if_false]
    rw [find?_append_new _ _ _ h]
    rfl
  · simp only [if_true]
    rw [find?_map_replace _ _ _ h]
    rfl

/-- C5: a call with an empty field-data map whose fingerprint is not in
the ledger (the ledger never holds one: records are only written after a
non-empty run) is rejected with a structured failure, and neither an
artifact nor a ledger record is produced. -/
theorem empty_field_data_rejected (env : FillEnv) (st : FillState) (url : String)
    (out : Option String) (force : Bool)
    (hled : st.protector.check (request_key env.hash url []) = none) :
    (perform_form_filling_logic env st url [] out force).1.success = false
    ∧ (perform_form_filling_logic env st url [] out force).1.error
        = some "No field data provided."
    ∧ (perform_form_filling_logic env st url [] out force).2 = st := by
  simp only [perform_form_filling_logic, hled]
  simp [fillPipeline]

/-- Witness for C5 on a fresh ledger. -/
theorem empty_field_data_rejected_witness :
    (perform_form_filling_logic ⟨id, fun _ => none, 0, "t", "0"⟩ ⟨⟨[]⟩, [], []⟩
       "u" [] none false).1.success = false
    ∧ (perform_form_filling_logic ⟨id, fun _ => none, 0, "t", "0"⟩ ⟨⟨[]⟩, [], []⟩
        "u" [] none false).1.error = some "No field data provided."
    ∧ (perform_form_filling_logic ⟨id, fun _ => none, 0, "t", "0"⟩ ⟨⟨[]⟩, [], []⟩
        "u" [] none false).2 = ⟨⟨[]⟩, [], []⟩ :=
  empty_field_data_rejected _ _ "u" none false rfl

/-- C1 counterexample: with an empty field-data map the first call does
not execute the pipeline and records no ledger entry, and the second
identical call is rejected rather than returning ALREADY_COMPLETED, so the
claim does not hold for every (form_url, field_data) pair. -/
theorem fill_twice_empty_data_counterexample :
    (perform_form_filling_logic ⟨id, fun _ => some [], 0, "t", "0"⟩
        (perform_form_filling_logic ⟨id, fun _ => some [], 0, "t", "0"⟩
          ⟨⟨[]⟩, [], []⟩ "u" [] none false).2
        "u" [] none false).1.status ≠ some "ALREADY_COMPLETED"
    ∧ (perform_form_filling_logic ⟨id, fun _ => some [], 0, "t", "0"⟩
        ⟨⟨[]⟩, [], []⟩ "u" [] none false).2.protector.hashes = [] :=
  ⟨by decide, rfl⟩

/-- C1 amended: whenever a first call (force_recompute false) completes
the fill pipeline (status COMPLETED, which requires non-empty field data
and a successful document fetch), it records a ledger entry, and a second
call with the same form_url and field_data short-circuits: it returns
ALREADY_COMPLETED with the first call's file_id and saved_path, runs no
pipeline and leaves the state unchanged. -/
theorem fill_second_call_short_circuits (env₁ env₂ : FillEnv) (st : FillState)
    (url : String) (data : List (String × String)) (out₁ out₂ : Option String)
    (hh : env₂.hash = env₁.hash)
    (h : (perform_form_filling_logic env₁ st url data out₁ false).1.status
           = some "COMPLETED") :
    (perform_form_filling_logic env₁ st url data out₁ false).2.protector.check
        (request_key env₁.hash url data)
      = some ((perform_form_filling_logic env₁ st url data out₁ false).1.savedPath.getD "",
              (perform_form_filling_logic env₁ st url data out₁ false).1.fileId.getD "")
    ∧ (perform_form_filling_logic env₂
        (perform_form_filling_logic env₁ st url data out₁ false).2
        url data out₂ false).1.status = some "ALREADY_COMPLETED"
    ∧ (perform_form_filling_logic env₂
        (perform_form_filling_logic env₁ st url data out₁ false).2
        url data out₂ false).1.success = true
    ∧ (perform_form_filling_logic env₂
        (perform_form_filling_logic env₁ st url data out₁ false).2
        url data out₂ false).1.fileId
      = (perform_form_filling_logic env₁ st url data out₁ false).1.fileId
    ∧ (perform_form_filling_logic env₂
        (perform_form_filling_logic env₁ st url data out₁ false).2
        url data out₂ false).1.savedPath
      = (perform_form_filling_logic env₁ st url data out₁ false).1.savedPath
    ∧ (perform_form_filling_logic env₂
        (perform_form_filling_logic env₁ st url data out₁ false).2
        url data out₂ false).2
      = (perform_form_filling_logic env₁ st url data out₁ false).2 := by
  rcases hc : st.protector.check (request_key env₁.hash url data) with _ | pf
  · rcases hemp : data.isEmpty with _ | _
    · rcases hdoc : env₁.fetchDoc url with _ | doc
      · simp [perform_form_filling_logic, hc, fillPipeline, hemp, hdoc] at h
      · simp only [perform_form_filling_logic, hc, fillPipeline, hemp,
          Bool.false_eq_true, if_false, hdoc, hh, check_save]
        simp [shortCircuitResult]
    · simp [perform_form_filling_logic, hc, fillPipeline, hemp] at h
  · rcases pf with ⟨lastPath, lastFileId⟩
    simp [perform_form_filling_logic, hc, shortCircuitResult] at h

/-- Witness for C1 at a concrete completed run: the repeated call reports
ALREADY_COMPLETED. -/
theorem fill_second_call_short_circuits_witness :
    (perform_form_filling_logic ⟨id, fun _ => some [], 0, "t", "0"⟩
        (perform_form_filling_logic ⟨id, fun _ => some [], 0, "t", "0"⟩
          ⟨⟨[]⟩, [], []⟩ "u" [("a", "b")] (some "f.pdf") false).2
        "u" [("a", "b")] (some "f.pdf") false).1.status = some "ALREADY_COMPLETED" :=
  (fill_second_call_short_circuits ⟨id, fun _ => some [], 0, "t", "0"⟩
    ⟨id, fun _ => some [], 0, "t", "0"⟩ ⟨⟨[]⟩, [], []⟩ "u" [("a", "b")]
    (some "f.pdf") (some "f.pdf") rfl rfl).2.1

/-- C10: a completed run that matches zero fields returns success false
with status COMPLETED, yet still saves the artifact, registers it and
writes the ledger record; an identical subsequent call without
force_recompute therefore short-circuits with success true and
ALREADY_COMPLETED, referencing the zero-match artifact. -/
theorem zero_match_fill_still_ledgered (env₁ env₂ : FillEnv) (st : FillState)
    (url : String) (data : List (String × String)) (out : Option String)
    (doc : List Widget)
    (hh : env₂.hash = env₁.hash)
    (hled : st.protector.check (request_key env₁.hash url data) = none)
    (hne : data ≠ [])
    (hdoc : env₁.fetchDoc url = some doc)
    (hzero : (runMatch (doc.filter (fun w => w.name ≠ "")) data).filledCount = 0) :
    (perform_form_filling_logic env₁ st url data out false).1.success = false
    ∧ (perform_form_filling_logic env₁ st url data out false).1.status
        = some "COMPLETED"
    ∧ (perform_form_filling_logic env₁ st url data out false).2.savedFiles
        = st.savedFiles
            ++ [(perform_form_filling_logic env₁ st url data out false).1.savedPath.getD ""]
    ∧ (perform_form_filling_logic env₁ st url data out false).2.registered
        = st.registered
            ++ [((perform_form_filling_logic env₁ st url data out false).1.fileId.getD "",
                 (perform_form_filling_logic env₁ st url data out false).1.savedPath.getD "")]
    ∧ (perform_form_filling_logic env₁ st url data out false).2.protector.check
          (request_key env₁.hash url data)
        = some ((perform_form_filling_logic env₁ st url data out false).1.savedPath.getD "",
                (perform_form_filling_logic env₁ st url data out false).1.fileId.getD "")
    ∧ (perform_form_filling_logic env₂
        (perform_form_filling_logic env₁ st url data out false).2
        url data out false).1.success = true
    ∧ (perform_form_filling_logic env₂
        (perform_form_filling_logic env₁ st url data out false).2
        url data out false).1.status = some "ALREADY_COMPLETED"
    ∧ (perform_form_filling_logic env₂
        (perform_form_filling_logic env₁ st url data out false).2
        url data out false).1.fileId
      = (perform_form_filling_logic env₁ st url data out false).1.fileId := by
  have hemp : data.isEmpty = false := by
    cases data with
    | nil => exact absurd rfl hne
    | cons a as => rfl
  simp only [perform_form_filling_logic, hled, fillPipeline, hemp,
    Bool.false_eq_true, if_false, hdoc, hh, check_save, hzero]
  simp [shortCircuitResult]

/-- Witness for C10: a document with no fillable widgets yields a
zero-match completed run whose repetition short-circuits. -/
theorem zero_match_fill_still_ledgered_witness :
    (perform_form_filling_logic ⟨id, fun _ => some [], 0, "t", "0"⟩ ⟨⟨[]⟩, [], []⟩
        "u" [("a", "b")] (some "f.pdf") false).1.success = false
    ∧ (perform_form_filling_logic ⟨id, fun _ => some [], 0, "t", "0"⟩
        (perform_form_filling_logic ⟨id, fun _ => some [], 0, "t", "0"⟩ ⟨⟨[]⟩, [], []⟩
          "u" [("a", "b")] (some "f.pdf") false).2
        "u" [("a", "b")] (some "f.pdf") false).1.status = some "ALREADY_COMPLETED" :=
  ⟨(zero_match_fill_still_ledgered ⟨id, fun _ => some [], 0, "t", "0"⟩
      ⟨id, fun _ => some [], 0, "t", "0"⟩ ⟨⟨[]⟩, [], []⟩ "u" [("a", "b")]
      (some "f.pdf") [] rfl rfl (by decide) rfl rfl).1,
   (zero_match_fill_still_ledgered ⟨id, fun _ => some [], 0, "t", "0"⟩
      ⟨id, fun _ => some [], 0, "t", "0"⟩ ⟨⟨[]⟩, [], []⟩ "u" [("a", "b")]
      (some "f.pdf") [] rfl rfl (by decide) rfl rfl).2.2.2.2.2.2.1⟩
